import Mathlib

/-!
Shallow embedding of the lawbench adaptive admission-control core
(USL fitter, Governor state machine, autoscaler policy, tail-divergence
tracker) together with theorems settling the specification claims.

Modelling conventions:
* Go `float64` arithmetic is modelled over `ℚ` where all operations in the
  source are field operations (Governor, recovery pulses, USL fitter,
  tail tracker), and over `ℝ` where `math.Sqrt` appears (autoscaler /
  USL prediction).  `math.Inf(1)` and NaN results of `math.Sqrt` on
  negative arguments are modelled explicitly by the `GoFloat` type.
* Go `int` / `int64` are modelled as `ℤ` (or `ℕ` for pure counters),
  `time.Time` / `time.Duration` as `ℚ` seconds.
* Mutating methods become functions returning the updated value alongside
  the Go return value.  The human-readable `Reason` / `Mitigation` strings
  of `Action` are elided: no claim depends on them.
-/

namespace Lawbench

/-- Feigenbaum constant as pinned in the source: `const FeigenbaumDelta = 4.6692`. -/
def FeigenbaumDelta : ℚ := 46692 / 10000

/-- `CriticalityScalingRatio = 1.0 / FeigenbaumDelta` (≈ 0.214). -/
def CriticalityScalingRatio : ℚ := 1 / FeigenbaumDelta

/-- `SystemDNAConstraint` from the source: stable range for the coupling parameter r. -/
structure SystemDNAConstraint where
  MinR : ℚ
  MaxR : ℚ
deriving DecidableEq

/-- `var StableDNAConstraint = SystemDNAConstraint{MinR: 1.0, MaxR: 3.0}`. -/
def StableDNAConstraint : SystemDNAConstraint := { MinR := 1, MaxR := 3 }

/-- `SystemIntegrityMetrics`.  Only the fields read by the embedded functions are
kept; `IsolationScore`, `MeanTimeToRestart`, the LOC counters and the derived
fields are never read by `CalculateSystemDNA`, `CheckStructuralIntegrity` or
`ApplyRecovery` and are omitted. -/
structure SystemIntegrityMetrics where
  ImmutableOpsVerified : ℤ
  MutableSharedState : ℤ
  SupervisedProcesses : ℤ
  UnsupervisedProcesses : ℤ
  ScalingRatio : ℚ
  DeltaCriticalCore : ℚ
  DeltaComplexity : ℚ
deriving DecidableEq

/-- `CalculateSystemDNA` derives the coupling parameter r from metrics.
Go's `max(a, b)` on ints is Lean's `max`. -/
def CalculateSystemDNA (metrics : SystemIntegrityMetrics) : ℚ :=
  let isolationPenalty := (metrics.MutableSharedState : ℚ) /
    ((max metrics.ImmutableOpsVerified 1 : ℤ) : ℚ)
  let supervisionPenalty := (metrics.UnsupervisedProcesses : ℚ) /
    ((max metrics.SupervisedProcesses 1 : ℤ) : ℚ)
  let scalingPenalty := metrics.ScalingRatio / CriticalityScalingRatio
  1 + isolationPenalty + supervisionPenalty + scalingPenalty

/-- `RDynamics` tracks the evolution of the coupling parameter r over time. -/
structure RDynamics where
  InitialR : ℚ
  CurrentR : ℚ
  TargetR : ℚ
  History : List ℚ
  RecoveryEvents : ℤ
  InSaturationZone : Bool
deriving DecidableEq

/-- `NewRDynamics` creates the r-dynamics tracker with initial state. -/
def NewRDynamics (initialR : ℚ) : RDynamics :=
  { InitialR := initialR
    CurrentR := initialR
    TargetR := StableDNAConstraint.MaxR * (8/10)
    History := [initialR]
    RecoveryEvents := 0
    InSaturationZone := if StableDNAConstraint.MaxR ≤ initialR then true else false }

/-- `RDynamics.ApplyRecovery`: one correction pulse.  Returns the Go return
value (the new r) together with the updated state (the receiver is a pointer). -/
def RDynamics.ApplyRecovery (rd : RDynamics) (metrics : SystemIntegrityMetrics) :
    ℚ × RDynamics :=
  if rd.InSaturationZone = false then
    (rd.CurrentR, rd)
  else
    let isolationRatio := (metrics.MutableSharedState : ℚ) /
      ((max metrics.ImmutableOpsVerified 1 : ℤ) : ℚ)
    let instabilityDepth := rd.CurrentR - StableDNAConstraint.MaxR
    let correctionFactor := 1 / (1 + isolationRatio)
    let maxSafePulse := CriticalityScalingRatio
    let desiredPulse := instabilityDepth * correctionFactor * (1/2)
    let correctionPulse := min desiredPulse maxSafePulse
    let newR0 := rd.CurrentR - correctionPulse
    -- `if math.Abs(newR-3.0) < 0.0001 { newR = 3.0 * 0.999 }`
    let newR1 := if |newR0 - StableDNAConstraint.MaxR| < 1/10000 then
        StableDNAConstraint.MaxR * (999/1000)
      else newR0
    let newR := if newR1 < StableDNAConstraint.MinR then StableDNAConstraint.MinR else newR1
    (newR, { rd with
        CurrentR := newR
        History := rd.History ++ [newR]
        RecoveryEvents := rd.RecoveryEvents + 1
        InSaturationZone := if StableDNAConstraint.MaxR ≤ newR then true else false })

/-- `RDynamics.ApplyRecoveryUntilStable`: iterate `ApplyRecovery` while
`InSaturationZone` holds and fewer than `maxIterations` pulses have been applied.
The Go loop counter is modelled by structural recursion on the remaining
iteration budget; the result is (updated state, iterations used), and the Go
return value is `(state.CurrentR, iterations)`. -/
def RDynamics.ApplyRecoveryUntilStable (rd : RDynamics) (metrics : SystemIntegrityMetrics) :
    ℕ → RDynamics × ℕ
  | 0 => (rd, 0)
  | Nat.succ budget =>
    if rd.InSaturationZone then
      let rd1 := (rd.ApplyRecovery metrics).2
      let rest := rd1.ApplyRecoveryUntilStable metrics budget
      (rest.1, rest.2 + 1)
    else
      (rd, 0)

/-- `ActionType` constants (Go string constants). -/
def ActionStable : String := "STABLE"

/-- `ActionWarning = "WARNING"`. -/
def ActionWarning : String := "WARNING"

/-- `ActionPacing = "PACING"`. -/
def ActionPacing : String := "PACING"

/-- `ActionThrottle = "THROTTLE"`. -/
def ActionThrottle : String := "THROTTLE"

/-- `ActionBlockDeploy = "BLOCK_DEPLOY"`. -/
def ActionBlockDeploy : String := "BLOCK_DEPLOY"

/-- `ActionRestart = "RESTART"`. -/
def ActionRestart : String := "RESTART"

/-- The governor's decision.  Go field `Type` is a Lean keyword, so it is
`type` here; `Reason` and `Mitigation` (human-readable text built with
`fmt.Sprintf`) are elided — no claim reads them. -/
structure Action where
  type : String
  Metrics : SystemIntegrityMetrics
  Timestamp : ℚ
deriving DecidableEq

/-- `Governor` state.  `time.Time` fields are `ℚ` seconds. -/
structure Governor where
  rdynamics : RDynamics
  lastCheck : ℚ
  checkInterval : ℚ
  warningThreshold : ℚ
  dangerThreshold : ℚ
  saturationThreshold : ℚ
  inThrottleMode : Bool
  throttleEnteredAt : ℚ
  throttleMinDuration : ℚ
  throttleExitThreshold : ℚ
  warnings : ℤ
  throttleEvents : ℤ
  deployBlocked : ℤ
deriving DecidableEq

/-- `NewGovernor` creates a governor with standard thresholds.  The source calls
`time.Now()` for `lastCheck`; the construction time is a parameter here.
`throttleEnteredAt` starts at the zero value. -/
def NewGovernor (initialR : ℚ) (now : ℚ) : Governor :=
  { rdynamics :=
      { InitialR := initialR
        CurrentR := initialR
        TargetR := 24/10
        History := [initialR]
        RecoveryEvents := 0
        InSaturationZone := if 3 ≤ initialR then true else false }
    lastCheck := now
    checkInterval := 1
    warningThreshold := 28/10
    dangerThreshold := 29/10
    saturationThreshold := 3
    inThrottleMode := false
    throttleEnteredAt := 0
    throttleMinDuration := 60
    throttleExitThreshold := 2
    warnings := 0
    throttleEvents := 0
    deployBlocked := 0 }

/-- Phase II of `CheckStructuralIntegrity`: the runtime r-zone checks, after the
deployment gate.  Mirrors the source control flow exactly, including the
behaviour that the hysteresis-exit path (which clears `inThrottleMode`)
continues into the re-entry block below it. -/
def Governor.checkRuntimeState (g : Governor) (metrics : SystemIntegrityMetrics)
    (now : ℚ) (currentR : ℚ) : Action × Governor :=
  if g.saturationThreshold ≤ currentR ∨ g.inThrottleMode = true then
    if g.inThrottleMode = true ∧
        ¬(g.throttleMinDuration ≤ now - g.throttleEnteredAt ∧
          currentR < g.throttleExitThreshold) then
      -- still in throttle mode (hysteresis active)
      ({ type := ActionThrottle, Metrics := metrics, Timestamp := now }, g)
    else
      -- either the exit conditions held (clear the mode) or we were not in
      -- throttle mode; in both cases control reaches the enter-throttle block
      let g1 := if g.inThrottleMode = true then { g with inThrottleMode := false } else g
      let g2 := if g1.inThrottleMode = false then
          { g1 with
              inThrottleMode := true
              throttleEnteredAt := now
              throttleEvents := g1.throttleEvents + 1 }
        else g1
      ({ type := ActionThrottle, Metrics := metrics, Timestamp := now }, g2)
  else if g.dangerThreshold ≤ currentR then
    ({ type := ActionPacing, Metrics := metrics, Timestamp := now }, g)
  else if g.warningThreshold ≤ currentR then
    ({ type := ActionWarning, Metrics := metrics, Timestamp := now },
     { g with warnings := g.warnings + 1 })
  else
    ({ type := ActionStable, Metrics := metrics, Timestamp := now }, g)

/-- `Governor.CheckStructuralIntegrity`: the main decision function.
`time.Now()` is the parameter `now`.  The velocity Δr/Δt is computed in the
source but feeds only the elided `Reason` strings. -/
def Governor.CheckStructuralIntegrity (g : Governor) (metrics : SystemIntegrityMetrics)
    (now : ℚ) : Action × Governor :=
  let currentR := CalculateSystemDNA metrics
  let g1 : Governor :=
    { g with
        rdynamics :=
          { g.rdynamics with
              CurrentR := currentR
              History := g.rdynamics.History ++ [currentR]
              InSaturationZone := if g.saturationThreshold ≤ currentR then true else false }
        lastCheck := now }
  -- Phase I: deployment constraint
  if 0 < metrics.DeltaCriticalCore ∨ 0 < metrics.DeltaComplexity then
    if metrics.DeltaCriticalCore = 0 ∧ 0 < metrics.DeltaComplexity then
      ({ type := ActionBlockDeploy, Metrics := metrics, Timestamp := now },
       { g1 with deployBlocked := g1.deployBlocked + 1 })
    else if FeigenbaumDelta < metrics.DeltaComplexity / metrics.DeltaCriticalCore then
      ({ type := ActionBlockDeploy, Metrics := metrics, Timestamp := now },
       { g1 with deployBlocked := g1.deployBlocked + 1 })
    else
      g1.checkRuntimeState metrics now currentR
  else
    g1.checkRuntimeState metrics now currentR

/-- `Governor.ApplyRecovery`: iterative correction; returns `true` iff r ended
below the saturation threshold within the 20-iteration cap. -/
def Governor.ApplyRecovery (g : Governor) (metrics : SystemIntegrityMetrics) :
    Bool × Governor :=
  let res := g.rdynamics.ApplyRecoveryUntilStable metrics 20
  let finalR := res.1.CurrentR
  if g.saturationThreshold ≤ finalR then
    (false, { g with rdynamics := res.1 })
  else
    (true, { g with rdynamics := res.1, throttleEvents := g.throttleEvents + res.2 })

/-! ### Helper lemmas -/

/-- The runtime-zone phase never produces a `BLOCK_DEPLOY` action; deploy blocks
come only from Phase I. -/
theorem checkRuntimeState_type_ne_blockDeploy (g : Governor) (m : SystemIntegrityMetrics)
    (now currentR : ℚ) :
    (g.checkRuntimeState m now currentR).1.type ≠ ActionBlockDeploy := by
  unfold Governor.checkRuntimeState
  split_ifs <;>
    simp [ActionThrottle, ActionPacing, ActionWarning, ActionStable, ActionBlockDeploy]

/-- If the state is not in the saturation zone, the recovery loop performs no
iterations regardless of the budget. -/
theorem applyRecoveryUntilStable_not_sat (rd : RDynamics) (m : SystemIntegrityMetrics)
    (hflag : rd.InSaturationZone = false) :
    ∀ n : ℕ, rd.ApplyRecoveryUntilStable m n = (rd, 0)
  | 0 => rfl
  | Nat.succ _ => by
    unfold RDynamics.ApplyRecoveryUntilStable
    simp [hflag]

/-! ### Claim C8 -/

/-- C8: `CalculateSystemDNA` is non-decreasing in each of `MutableSharedState`,
`UnsupervisedProcesses` and `ScalingRatio` separately, holding the other fields
fixed, for all non-negative field values. -/
theorem calculateSystemDNA_monotone (m : SystemIntegrityMetrics)
    (x y : ℤ) (hx : 0 ≤ x) (hxy : x ≤ y) (q r : ℚ) (hq : 0 ≤ q) (hqr : q ≤ r) :
    CalculateSystemDNA { m with MutableSharedState := x } ≤
      CalculateSystemDNA { m with MutableSharedState := y } ∧
    CalculateSystemDNA { m with UnsupervisedProcesses := x } ≤
      CalculateSystemDNA { m with UnsupervisedProcesses := y } ∧
    CalculateSystemDNA { m with ScalingRatio := q } ≤
      CalculateSystemDNA { m with ScalingRatio := r } := by
  have hxy' : (x : ℚ) ≤ (y : ℚ) := by exact_mod_cast hxy
  have hd1 : (0:ℚ) ≤ ((max m.ImmutableOpsVerified 1 : ℤ) : ℚ) := by
    have h1 : (1:ℤ) ≤ max m.ImmutableOpsVerified 1 := le_max_right _ _
    have h2 : (1:ℚ) ≤ ((max m.ImmutableOpsVerified 1 : ℤ) : ℚ) := by exact_mod_cast h1
    linarith
  have hd2 : (0:ℚ) ≤ ((max m.SupervisedProcesses 1 : ℤ) : ℚ) := by
    have h1 : (1:ℤ) ≤ max m.SupervisedProcesses 1 := le_max_right _ _
    have h2 : (1:ℚ) ≤ ((max m.SupervisedProcesses 1 : ℤ) : ℚ) := by exact_mod_cast h1
    linarith
  have hd3 : (0:ℚ) ≤ CriticalityScalingRatio := by
    norm_num [CriticalityScalingRatio, FeigenbaumDelta]
  unfold CalculateSystemDNA
  refine ⟨?_, ?_, ?_⟩ <;> simp only
  · have := div_le_div_of_nonneg_right (c := ((max m.ImmutableOpsVerified 1 : ℤ) : ℚ)) hxy' hd1
    linarith
  · have := div_le_div_of_nonneg_right (c := ((max m.SupervisedProcesses 1 : ℤ) : ℚ)) hxy' hd2
    linarith
  · have := div_le_div_of_nonneg_right (c := CriticalityScalingRatio) hqr hd3
    linarith

/-- Witness for C8 at a concrete metrics record. -/
theorem calculateSystemDNA_monotone_witness :
    (0:ℤ) ≤ 2 ∧ (2:ℤ) ≤ 5 ∧ (0:ℚ) ≤ 1/10 ∧ (1/10:ℚ) ≤ 1/5 ∧
    (CalculateSystemDNA
        { ImmutableOpsVerified := 100, MutableSharedState := 2, SupervisedProcesses := 50,
          UnsupervisedProcesses := 3, ScalingRatio := 1/10, DeltaCriticalCore := 0,
          DeltaComplexity := 0 } ≤
      CalculateSystemDNA
        { ImmutableOpsVerified := 100, MutableSharedState := 5, SupervisedProcesses := 50,
          UnsupervisedProcesses := 3, ScalingRatio := 1/10, DeltaCriticalCore := 0,
          DeltaComplexity := 0 }) :=
  ⟨by norm_num, by norm_num, by norm_num, by norm_num,
    (calculateSystemDNA_monotone
      { ImmutableOpsVerified := 100, MutableSharedState := 0, SupervisedProcesses := 50,
        UnsupervisedProcesses := 3, ScalingRatio := 1/10, DeltaCriticalCore := 0,
        DeltaComplexity := 0 }
      2 5 (by norm_num) (by norm_num) (1/10) (1/5) (by norm_num) (by norm_num)).1⟩

/-! ### Claim C2 -/

/-- C2: for metrics with non-negative deployment deltas, the evaluation returns
an action of type `BlockDeploy` iff `DeltaCriticalCore = 0 ∧ DeltaComplexity > 0`
(pure debt) or `DeltaCriticalCore > 0 ∧ DeltaComplexity / DeltaCriticalCore > δ`;
otherwise evaluation proceeds to the runtime zone selection and never returns
`BlockDeploy`. -/
theorem governor_deploy_gate_iff (g : Governor) (m : SystemIntegrityMetrics) (now : ℚ)
    (h1 : 0 ≤ m.DeltaCriticalCore) (h2 : 0 ≤ m.DeltaComplexity) :
    ((g.CheckStructuralIntegrity m now).1.type = ActionBlockDeploy ↔
      (m.DeltaCriticalCore = 0 ∧ 0 < m.DeltaComplexity) ∨
        (0 < m.DeltaCriticalCore ∧
          FeigenbaumDelta < m.DeltaComplexity / m.DeltaCriticalCore)) := by
  have hδ : (0:ℚ) < FeigenbaumDelta := by norm_num [FeigenbaumDelta]
  unfold Governor.CheckStructuralIntegrity
  split_ifs with hgate hdebt hratio
  · simp only [true_iff]
    exact Or.inl hdebt
  · simp only [true_iff]
    have hcore : 0 < m.DeltaCriticalCore := by
      rcases lt_or_eq_of_le h1 with h | h
      · exact h
      · exfalso
        rw [← h] at hratio
        simp at hratio
        linarith
    exact Or.inr ⟨hcore, hratio⟩
  · simp only [iff_false_intro (checkRuntimeState_type_ne_blockDeploy _ _ _ _), false_iff]
    rintro (⟨hz, hpos⟩ | ⟨hpos, hrat⟩)
    · exact hdebt ⟨hz, hpos⟩
    · exact hratio hrat
  · simp only [iff_false_intro (checkRuntimeState_type_ne_blockDeploy _ _ _ _), false_iff]
    push_neg at hgate
    rintro (⟨_, hpos⟩ | ⟨hpos, _⟩)
    · exact absurd hpos (not_lt.mpr hgate.2)
    · exact absurd hpos (not_lt.mpr hgate.1)

/-- Witness for C2: a deployment with ratio 470/50 = 9.4 > δ is blocked. -/
theorem governor_deploy_gate_iff_witness :
    (0:ℚ) ≤ 50 ∧ (0:ℚ) ≤ 470 ∧
    (((NewGovernor (5/2) 0).CheckStructuralIntegrity
        { ImmutableOpsVerified := 100, MutableSharedState := 10, SupervisedProcesses := 50,
          UnsupervisedProcesses := 5, ScalingRatio := 15/100, DeltaCriticalCore := 50,
          DeltaComplexity := 470 } 0).1.type = ActionBlockDeploy ↔
      ((50:ℚ) = 0 ∧ (0:ℚ) < 470) ∨
        ((0:ℚ) < 50 ∧ FeigenbaumDelta < (470:ℚ) / 50)) :=
  ⟨by norm_num, by norm_num,
    governor_deploy_gate_iff (NewGovernor (5/2) 0)
      { ImmutableOpsVerified := 100, MutableSharedState := 10, SupervisedProcesses := 50,
        UnsupervisedProcesses := 5, ScalingRatio := 15/100, DeltaCriticalCore := 50,
        DeltaComplexity := 470 } 0 (by norm_num) (by norm_num)⟩

/-! ### Claim C1 -/

/-- Metrics producing r = 3.5 (throttle entry) with no deployment deltas. -/
def throttleEntryMetrics : SystemIntegrityMetrics :=
  { ImmutableOpsVerified := 2, MutableSharedState := 5, SupervisedProcesses := 0,
    UnsupervisedProcesses := 0, ScalingRatio := 0, DeltaCriticalCore := 0,
    DeltaComplexity := 0 }

/-- All-zero metrics: `CalculateSystemDNA` gives r = 1. -/
def quietMetrics : SystemIntegrityMetrics :=
  { ImmutableOpsVerified := 0, MutableSharedState := 0, SupervisedProcesses := 0,
    UnsupervisedProcesses := 0, ScalingRatio := 0, DeltaCriticalCore := 0,
    DeltaComplexity := 0 }

/-- A governor that has just entered throttle mode at time 0 (reached from
`NewGovernor` by one evaluation at r = 3.5). -/
def throttledGovernor : Governor :=
  ((NewGovernor (3/2) 0).CheckStructuralIntegrity throttleEntryMetrics 0).2

/-- C1 counterexample: a governor in throttle mode (entered at time 0), evaluated
30 s later with metrics whose computed r = 1 < r_exit = 2, still returns a
`Throttle` action and stays in throttle mode — the claim predicts that throttle
mode is cleared and the evaluation falls through to the normal zone action
(`Stable`, as r = 1 < 2.8).  The exit requires *both* 60 s of dwell *and*
r < 2; r < 2 alone does not clear throttle mode within the dwell. -/
theorem governor_throttle_not_cleared_within_dwell_cex :
    throttledGovernor.inThrottleMode = true ∧
    throttledGovernor.throttleEnteredAt = 0 ∧
    CalculateSystemDNA quietMetrics < 2 ∧
    (throttledGovernor.CheckStructuralIntegrity quietMetrics 30).1.type = ActionThrottle ∧
    (throttledGovernor.CheckStructuralIntegrity quietMetrics 30).1.type ≠ ActionStable ∧
    (throttledGovernor.CheckStructuralIntegrity quietMetrics 30).2.inThrottleMode = true := by
  refine ⟨?_, ?_, ?_, ?_, ?_, ?_⟩ <;>
    norm_num [throttledGovernor, throttleEntryMetrics, quietMetrics, NewGovernor,
      Governor.CheckStructuralIntegrity, Governor.checkRuntimeState, CalculateSystemDNA,
      CriticalityScalingRatio, FeigenbaumDelta, max_def,
      ActionThrottle, ActionStable] <;>
    decide

/-- C1 (amended): once a Governor instance has entered throttle mode, every
evaluation within the next 60 seconds (strictly less than the minimum dwell)
of a non-deployment metrics record returns an action of type `Throttle`
regardless of the computed r — there is no r-based early exit; throttle mode
is cleared only when at least 60 s have elapsed *and* r < r_exit = 2. -/
theorem governor_throttle_sticky_within_dwell (g : Governor) (m : SystemIntegrityMetrics)
    (now : ℚ)
    (hmode : g.inThrottleMode = true)
    (hdwell : g.throttleMinDuration = 60)
    (helapsed : now - g.throttleEnteredAt < 60)
    (hdc : m.DeltaCriticalCore = 0)
    (hdx : m.DeltaComplexity = 0) :
    (g.CheckStructuralIntegrity m now).1.type = ActionThrottle := by
  have hnogate : ¬(0 < m.DeltaCriticalCore ∨ 0 < m.DeltaComplexity) := by
    rw [hdc, hdx]
    norm_num
  simp only [Governor.CheckStructuralIntegrity, Governor.checkRuntimeState]
  rw [if_neg hnogate]
  simp only [hmode, eq_self_iff_true, or_true, true_and, if_true]
  split_ifs <;> rfl

/-- Witness for the amended C1 at the concrete throttled governor, 30 s after
entry, with r = 1. -/
theorem governor_throttle_sticky_within_dwell_witness :
    throttledGovernor.inThrottleMode = true ∧
    throttledGovernor.throttleMinDuration = 60 ∧
    (30:ℚ) - throttledGovernor.throttleEnteredAt < 60 ∧
    quietMetrics.DeltaCriticalCore = 0 ∧
    quietMetrics.DeltaComplexity = 0 ∧
    (throttledGovernor.CheckStructuralIntegrity quietMetrics 30).1.type = ActionThrottle := by
  have h1 : throttledGovernor.inThrottleMode = true := by
    norm_num [throttledGovernor, throttleEntryMetrics, NewGovernor,
      Governor.CheckStructuralIntegrity, Governor.checkRuntimeState, CalculateSystemDNA,
      CriticalityScalingRatio, FeigenbaumDelta, max_def]
  have h2 : throttledGovernor.throttleMinDuration = 60 := by
    norm_num [throttledGovernor, throttleEntryMetrics, NewGovernor,
      Governor.CheckStructuralIntegrity, Governor.checkRuntimeState, CalculateSystemDNA,
      CriticalityScalingRatio, FeigenbaumDelta, max_def]
  have h3 : (30:ℚ) - throttledGovernor.throttleEnteredAt < 60 := by
    norm_num [throttledGovernor, throttleEntryMetrics, NewGovernor,
      Governor.CheckStructuralIntegrity, Governor.checkRuntimeState, CalculateSystemDNA,
      CriticalityScalingRatio, FeigenbaumDelta, max_def]
  exact ⟨h1, h2, h3, rfl, rfl,
    governor_throttle_sticky_within_dwell throttledGovernor quietMetrics 30 h1 h2 h3 rfl rfl⟩

/-! ### Claim C10 -/

/-- C10: if the r-dynamics state is not in the saturation zone (r < 3, flag
clear), `ApplyRecovery` returns the current r and changes no state at all, and
`Governor.ApplyRecovery` returns `true` without modifying the governor. -/
theorem applyRecovery_frame_below_saturation (g : Governor) (m : SystemIntegrityMetrics)
    (hflag : g.rdynamics.InSaturationZone = false)
    (hr : g.rdynamics.CurrentR < 3)
    (hsat : g.saturationThreshold = 3) :
    g.rdynamics.ApplyRecovery m = (g.rdynamics.CurrentR, g.rdynamics) ∧
    g.ApplyRecovery m = (true, g) := by
  refine ⟨?_, ?_⟩
  · unfold RDynamics.ApplyRecovery
    rw [if_pos hflag]
  · unfold Governor.ApplyRecovery
    rw [applyRecoveryUntilStable_not_sat g.rdynamics m hflag 20]
    simp only
    rw [if_neg (by rw [hsat]; exact not_le.mpr hr)]
    simp

/-- Witness for C10 at `NewGovernor 2 0` with all-zero metrics. -/
theorem applyRecovery_frame_below_saturation_witness :
    (NewGovernor 2 0).rdynamics.InSaturationZone = false ∧
    (NewGovernor 2 0).rdynamics.CurrentR < 3 ∧
    (NewGovernor 2 0).saturationThreshold = 3 ∧
    (NewGovernor 2 0).rdynamics.ApplyRecovery
        { ImmutableOpsVerified := 1, MutableSharedState := 0, SupervisedProcesses := 1,
          UnsupervisedProcesses := 0, ScalingRatio := 0, DeltaCriticalCore := 0,
          DeltaComplexity := 0 } =
      ((NewGovernor 2 0).rdynamics.CurrentR, (NewGovernor 2 0).rdynamics) ∧
    (NewGovernor 2 0).ApplyRecovery
        { ImmutableOpsVerified := 1, MutableSharedState := 0, SupervisedProcesses := 1,
          UnsupervisedProcesses := 0, ScalingRatio := 0, DeltaCriticalCore := 0,
          DeltaComplexity := 0 } = (true, NewGovernor 2 0) :=
  ⟨by decide, by decide, by decide,
    (applyRecovery_frame_below_saturation (NewGovernor 2 0) _
      (by decide) (by decide) (by decide)).1,
    (applyRecovery_frame_below_saturation (NewGovernor 2 0) _
      (by decide) (by decide) (by decide)).2⟩

/-! ### Claim C7 -/

/-- C7: for a state in the saturation zone (r ≥ 3) and metrics with non-negative
counts, one `ApplyRecovery` pulse never lowers r by more than 1/δ, never
increases r, and yields a result that is at least 1. -/
theorem applyRecovery_pulse_bounds (rd : RDynamics) (m : SystemIntegrityMetrics)
    (hflag : rd.InSaturationZone = true)
    (hr : 3 ≤ rd.CurrentR)
    (hmut : 0 ≤ m.MutableSharedState)
    (himm : 0 ≤ m.ImmutableOpsVerified) :
    rd.CurrentR - CriticalityScalingRatio ≤ (rd.ApplyRecovery m).1 ∧
    (rd.ApplyRecovery m).1 ≤ rd.CurrentR ∧
    1 ≤ (rd.ApplyRecovery m).1 := by
  have hCSR : CriticalityScalingRatio = 10000/46692 := by
    norm_num [CriticalityScalingRatio, FeigenbaumDelta]
  have hden : (1:ℚ) ≤ ((max m.ImmutableOpsVerified 1 : ℤ) : ℚ) := by
    exact_mod_cast le_max_right m.ImmutableOpsVerified 1
  have hiso : 0 ≤ (m.MutableSharedState : ℚ) / ((max m.ImmutableOpsVerified 1 : ℤ) : ℚ) := by
    apply div_nonneg
    · exact_mod_cast hmut
    · linarith
  set iso := (m.MutableSharedState : ℚ) / ((max m.ImmutableOpsVerified 1 : ℤ) : ℚ) with hisodef
  have hcf0 : 0 < 1 / (1 + iso) := by positivity
  have hcf1 : 1 / (1 + iso) ≤ 1 := by
    rw [div_le_one (by linarith)]
    linarith
  have hdes0 : 0 ≤ (rd.CurrentR - StableDNAConstraint.MaxR) * (1 / (1 + iso)) * (1/2) := by
    have hdepth : 0 ≤ rd.CurrentR - StableDNAConstraint.MaxR := by
      simp only [StableDNAConstraint]
      linarith
    positivity
  have hdeshalf : (rd.CurrentR - StableDNAConstraint.MaxR) * (1 / (1 + iso)) * (1/2) ≤
      (rd.CurrentR - StableDNAConstraint.MaxR) * (1/2) := by
    have hdepth : 0 ≤ rd.CurrentR - StableDNAConstraint.MaxR := by
      simp only [StableDNAConstraint]
      linarith
    have := mul_le_mul_of_nonneg_left hcf1 hdepth
    nlinarith
  unfold RDynamics.ApplyRecovery
  rw [if_neg (by simp [hflag])]
  simp only [← hisodef]
  set desired := (rd.CurrentR - StableDNAConstraint.MaxR) * (1 / (1 + iso)) * (1/2)
    with hdesdef
  set pulse := min desired CriticalityScalingRatio with hpulsedef
  have hp0 : 0 ≤ pulse := le_min hdes0 (by rw [hCSR]; norm_num)
  have hpCSR : pulse ≤ CriticalityScalingRatio := min_le_right _ _
  have hpdes : pulse ≤ desired := min_le_left _ _
  simp only [StableDNAConstraint] at hdeshalf ⊢
  split_ifs with habs hclamp1 hclamp2
  · -- special case near the boundary, then the (unreachable) clamp to 1
    exfalso
    norm_num at hclamp1
  · -- special case near the boundary: result is 2.997
    rw [abs_lt] at habs
    have hdepthsmall : rd.CurrentR - 3 < 2/10000 := by
      have h1 : rd.CurrentR - pulse - 3 < 1/10000 := by linarith [habs.2]
      linarith [hpdes, hdeshalf]
    refine ⟨?_, ?_, ?_⟩
    · rw [hCSR]; linarith
    · linarith
    · norm_num
  · -- ordinary pulse, clamp fires: impossible since r - pulse > 2
    exfalso
    rw [hCSR] at hpCSR
    linarith
  · -- ordinary pulse: result is r - pulse
    exact ⟨by linarith, by linarith, by rw [hCSR] at hpCSR; linarith⟩

/-- A saturated r-dynamics state (r = 3.5) for the C7 witness. -/
def saturatedState : RDynamics :=
  { InitialR := 35/10, CurrentR := 35/10, TargetR := 24/10, History := [35/10],
    RecoveryEvents := 0, InSaturationZone := true }

/-- Perfect-isolation metrics for the C7 witness. -/
def isolationMetrics : SystemIntegrityMetrics :=
  { ImmutableOpsVerified := 1, MutableSharedState := 0, SupervisedProcesses := 1,
    UnsupervisedProcesses := 0, ScalingRatio := 0, DeltaCriticalCore := 0,
    DeltaComplexity := 0 }

/-- Witness for C7: r = 3.5 with perfect isolation; the pulse is capped at 1/δ. -/
theorem applyRecovery_pulse_bounds_witness :
    saturatedState.InSaturationZone = true ∧
    3 ≤ saturatedState.CurrentR ∧
    ((saturatedState.ApplyRecovery isolationMetrics).1 ≤ saturatedState.CurrentR) ∧
    (saturatedState.CurrentR - CriticalityScalingRatio ≤
      (saturatedState.ApplyRecovery isolationMetrics).1) :=
  ⟨rfl, by norm_num [saturatedState],
    (applyRecovery_pulse_bounds saturatedState isolationMetrics rfl
      (by norm_num [saturatedState]) (by norm_num [isolationMetrics])
      (by norm_num [isolationMetrics])).2.1,
    (applyRecovery_pulse_bounds saturatedState isolationMetrics rfl
      (by norm_num [saturatedState]) (by norm_num [isolationMetrics])
      (by norm_num [isolationMetrics])).1⟩

/-! ### Tail-divergence tracker -/

/-- `TailDivergenceTracker`: fixed-capacity ring buffer of latencies
(`time.Duration`, i.e. `int64` nanoseconds, modelled as `ℤ`).  The cached
percentile fields of the source (`cachedP50`, …, `cacheValid`) are declared but
never read by any accessor and are omitted; the mutex is concurrency-only. -/
structure TailDivergenceTracker where
  samples : List ℤ
  maxSamples : ℕ
  writeIndex : ℕ
  sampleCount : ℕ
deriving DecidableEq

/-- `NewTailDivergenceTracker`: non-positive capacities fall back to 1000;
`make([]time.Duration, maxSamples)` zero-fills the buffer. -/
def NewTailDivergenceTracker (maxSamples : ℤ) : TailDivergenceTracker :=
  let m : ℕ := if maxSamples ≤ 0 then 1000 else maxSamples.toNat
  { samples := List.replicate m 0
    maxSamples := m
    writeIndex := 0
    sampleCount := 0 }

/-- `Record`: ring-buffer write, advance the index modulo capacity, count. -/
def TailDivergenceTracker.Record (t : TailDivergenceTracker) (latency : ℤ) :
    TailDivergenceTracker :=
  { t with
      samples := t.samples.set t.writeIndex latency
      writeIndex := (t.writeIndex + 1) % t.maxSamples
      sampleCount := t.sampleCount + 1 }

/-- `effectiveSampleCount`: number of valid samples in the buffer. -/
def TailDivergenceTracker.effectiveSampleCount (t : TailDivergenceTracker) : ℕ :=
  if t.sampleCount < t.maxSamples then t.sampleCount else t.maxSamples

/-- `percentile`: snapshot the live region, sort a copy, index
`int(float64(k-1)*p)` clamped into `[0, k-1]`.  `Nat.floor` returns 0 on
negative arguments, which subsumes the source's `if index < 0` clamp; the sort
is modelled by `insertionSort` (the source's `sort.Slice` produces the same
sorted permutation of `ℤ` values). -/
def TailDivergenceTracker.percentile (t : TailDivergenceTracker) (p : ℚ) : ℤ :=
  let effectiveSamples := t.effectiveSampleCount
  if effectiveSamples = 0 then 0
  else
    let sorted := (t.samples.take effectiveSamples).insertionSort (· ≤ ·)
    let index0 := Nat.floor (((effectiveSamples : ℚ) - 1) * p)
    let index := if effectiveSamples ≤ index0 then effectiveSamples - 1 else index0
    sorted.getD index 0

/-- `P50`: median latency. -/
def TailDivergenceTracker.P50 (t : TailDivergenceTracker) : ℤ := t.percentile (50/100)

/-- `P99`: 99th percentile latency. -/
def TailDivergenceTracker.P99 (t : TailDivergenceTracker) : ℤ := t.percentile (99/100)

/-- `TailDivergenceRatio = P99/P50`, returning 1 when P50 = 0. -/
def TailDivergenceTracker.TailDivergenceRatio (t : TailDivergenceTracker) : ℚ :=
  if t.P50 = 0 then 1 else (t.P99 : ℚ) / (t.P50 : ℚ)

/-- Folding `Record` over a list of latencies: "a tracker into which only the
latencies of `ls` have been recorded". -/
def recordAll (t : TailDivergenceTracker) (ls : List ℤ) : TailDivergenceTracker :=
  ls.foldl TailDivergenceTracker.Record t

/-! Helper lemmas for the tracker. -/

theorem recordAll_maxSamples (ls : List ℤ) (t : TailDivergenceTracker) :
    (recordAll t ls).maxSamples = t.maxSamples := by
  induction ls generalizing t with
  | nil => rfl
  | cons a ls ih =>
    show (recordAll (t.Record a) ls).maxSamples = t.maxSamples
    rw [ih]
    rfl

theorem recordAll_samples_length (ls : List ℤ) (t : TailDivergenceTracker) :
    (recordAll t ls).samples.length = t.samples.length := by
  induction ls generalizing t with
  | nil => rfl
  | cons a ls ih =>
    show (recordAll (t.Record a) ls).samples.length = t.samples.length
    rw [ih]
    simp [TailDivergenceTracker.Record, List.length_set]

theorem recordAll_samples_nonneg (ls : List ℤ) (t : TailDivergenceTracker)
    (ht : ∀ x ∈ t.samples, 0 ≤ x) (hl : ∀ x ∈ ls, 0 ≤ x) :
    ∀ x ∈ (recordAll t ls).samples, 0 ≤ x := by
  induction ls generalizing t with
  | nil => exact ht
  | cons a ls ih =>
    intro x hx
    refine ih _ ?_ (fun y hy => hl y (List.mem_cons_of_mem a hy)) x hx
    intro y hy
    rcases List.mem_or_eq_of_mem_set hy with hmem | heq
    · exact ht y hmem
    · exact heq ▸ hl a (List.mem_cons_self _ _)

theorem percentile_nonneg (t : TailDivergenceTracker) (p : ℚ)
    (hlen : t.maxSamples ≤ t.samples.length)
    (hs : ∀ x ∈ t.samples, 0 ≤ x) :
    0 ≤ t.percentile p := by
  simp only [TailDivergenceTracker.percentile]
  by_cases h0 : t.effectiveSampleCount = 0
  · rw [if_pos h0]
  · rw [if_neg h0]
    set k := t.effectiveSampleCount with hk
    have hkmax : k ≤ t.maxSamples := by
      rw [hk]
      unfold TailDivergenceTracker.effectiveSampleCount
      split_ifs <;> omega
    have hk1 : 1 ≤ k := Nat.one_le_iff_ne_zero.mpr h0
    set sorted := (t.samples.take k).insertionSort (· ≤ ·) with hsorted
    have hsortlen : sorted.length = k := by
      rw [hsorted, List.length_insertionSort, List.length_take]
      omega
    set i0 := Nat.floor (((k : ℚ) - 1) * p) with hi0
    set i := if k ≤ i0 then k - 1 else i0 with hi
    have hik : i < k := by
      rw [hi]
      split_ifs <;> omega
    have hilt : i < sorted.length := by omega
    have hmem : sorted.getD i 0 ∈ sorted := by
      rw [List.getD_eq_getElem?_getD, List.getElem?_eq_getElem hilt]
      exact List.getElem_mem hilt
    have hmem2 : sorted.getD i 0 ∈ t.samples :=
      List.mem_of_mem_take ((List.perm_insertionSort _ _).mem_iff.mp (hsorted ▸ hmem))
    exact hs _ hmem2

theorem percentile_mono (t : TailDivergenceTracker) (p q : ℚ)
    (hlen : t.maxSamples ≤ t.samples.length) (hpq : p ≤ q) :
    t.percentile p ≤ t.percentile q := by
  simp only [TailDivergenceTracker.percentile]
  by_cases h0 : t.effectiveSampleCount = 0
  · rw [if_pos h0, if_pos h0]
  · rw [if_neg h0, if_neg h0]
    set k := t.effectiveSampleCount with hk
    have hkmax : k ≤ t.maxSamples := by
      rw [hk]
      unfold TailDivergenceTracker.effectiveSampleCount
      split_ifs <;> omega
    have hk1 : 1 ≤ k := Nat.one_le_iff_ne_zero.mpr h0
    set sorted := (t.samples.take k).insertionSort (· ≤ ·) with hsorted
    have hsortlen : sorted.length = k := by
      rw [hsorted, List.length_insertionSort, List.length_take]
      omega
    set ip0 := Nat.floor (((k : ℚ) - 1) * p) with hip0
    set iq0 := Nat.floor (((k : ℚ) - 1) * q) with hiq0
    have hfloor : ip0 ≤ iq0 := by
      rw [hip0, hiq0]
      apply Nat.floor_mono
      apply mul_le_mul_of_nonneg_left hpq
      have h1 : (1:ℚ) ≤ (k:ℚ) := by exact_mod_cast hk1
      linarith
    set ip := if k ≤ ip0 then k - 1 else ip0 with hip
    set iq := if k ≤ iq0 then k - 1 else iq0 with hiq
    have hij : ip ≤ iq := by
      rw [hip, hiq]
      split_ifs <;> omega
    have hipk : ip < k := by
      rw [hip]
      split_ifs <;> omega
    have hiqk : iq < k := by
      rw [hiq]
      split_ifs <;> omega
    have hiplt : ip < sorted.length := by omega
    have hiqlt : iq < sorted.length := by omega
    have hgp : sorted.getD ip 0 = sorted.get ⟨ip, hiplt⟩ := by
      rw [List.getD_eq_getElem?_getD, List.getElem?_eq_getElem hiplt]
      rfl
    have hgq : sorted.getD iq 0 = sorted.get ⟨iq, hiqlt⟩ := by
      rw [List.getD_eq_getElem?_getD, List.getElem?_eq_getElem hiqlt]
      rfl
    rw [hgp, hgq]
    exact (List.sorted_insertionSort _ _).rel_get_of_le (by exact hij)

/-! ### Claim C9 -/

/-- C9: for every tracker into which only non-negative latencies have been
recorded (any list of record calls, any capacity), `TailDivergenceRatio` is ≥ 1:
exactly 1 when P50 = 0, and P99/P50 ≥ 1 otherwise, because both percentiles are
taken from the same sorted snapshot and the percentile index is monotone in p. -/
theorem tailDivergenceRatio_ge_one (cap : ℤ) (ls : List ℤ) (h : ∀ x ∈ ls, 0 ≤ x) :
    1 ≤ (recordAll (NewTailDivergenceTracker cap) ls).TailDivergenceRatio ∧
    ((recordAll (NewTailDivergenceTracker cap) ls).P50 = 0 →
      (recordAll (NewTailDivergenceTracker cap) ls).TailDivergenceRatio = 1) := by
  set T := recordAll (NewTailDivergenceTracker cap) ls with hT
  have hlen : T.maxSamples ≤ T.samples.length := by
    rw [hT, recordAll_maxSamples, recordAll_samples_length]
    unfold NewTailDivergenceTracker
    simp [List.length_replicate]
  have hnn : ∀ x ∈ T.samples, 0 ≤ x := by
    rw [hT]
    apply recordAll_samples_nonneg ls _ _ h
    intro x hx
    unfold NewTailDivergenceTracker at hx
    simp only [List.mem_replicate] at hx
    omega
  by_cases hp : T.P50 = 0
  · constructor
    · rw [TailDivergenceTracker.TailDivergenceRatio, if_pos hp]
    · intro _
      rw [TailDivergenceTracker.TailDivergenceRatio, if_pos hp]
  · have h50 : (0:ℤ) ≤ T.P50 := percentile_nonneg T (50/100) hlen hnn
    have hpos : (0:ℤ) < T.P50 := lt_of_le_of_ne h50 (Ne.symm hp)
    have hle : T.P50 ≤ T.P99 := percentile_mono T (50/100) (99/100) hlen (by norm_num)
    constructor
    · rw [TailDivergenceTracker.TailDivergenceRatio, if_neg hp]
      rw [le_div_iff₀ (by exact_mod_cast hpos)]
      have : (T.P50 : ℚ) ≤ (T.P99 : ℚ) := by exact_mod_cast hle
      linarith
    · intro hcontra
      exact absurd hcontra hp

/-- Witness for C9: capacity 3, latencies [5, 1, 7]. -/
theorem tailDivergenceRatio_ge_one_witness :
    (∀ x ∈ ([5, 1, 7] : List ℤ), 0 ≤ x) ∧
    1 ≤ (recordAll (NewTailDivergenceTracker 3) [5, 1, 7]).TailDivergenceRatio :=
  ⟨by decide, (tailDivergenceRatio_ge_one 3 [5, 1, 7] (by decide)).1⟩

/-! ### USL fitter -/

/-- Benchmark `Result`.  Only the fields read by `FitUSL` are kept (`N` and
`Throughput`); `Duration`, `Operations`, `Latencies` and `Errors` never enter
the fit. -/
structure Result where
  N : ℤ
  Throughput : ℚ
deriving DecidableEq

instance : Inhabited Result := ⟨⟨0, 0⟩⟩

/-- `USLCoefficients` (λ, α, β, R²). -/
structure USLCoefficients where
  Lambda : ℚ
  Alpha : ℚ
  Beta : ℚ
  RSquared : ℚ
deriving DecidableEq

/-- The samples the accumulation loop keeps: `if r.Throughput == 0 { continue }`. -/
def fitIncluded (results : List Result) : List Result :=
  results.filter (fun r => decide (r.Throughput ≠ 0))

/-- Loop local `Y := N / C(N)`. -/
def fitY (r : Result) : ℚ := (r.N : ℚ) / r.Throughput

/-- Loop local `X1 := N - 1`. -/
def fitX1 (r : Result) : ℚ := (r.N : ℚ) - 1

/-- Loop local `X2 := N * (N - 1)`. -/
def fitX2 (r : Result) : ℚ := (r.N : ℚ) * ((r.N : ℚ) - 1)

/-- `sumOne` accumulates 1 per included sample. -/
def sumOne (results : List Result) : ℚ := ((fitIncluded results).length : ℚ)

/-- `sumY = Σ Y`. -/
def sumY (results : List Result) : ℚ :=
  ((fitIncluded results).map (fun r => fitY r)).sum

/-- `sumX1 = Σ X1`. -/
def sumX1 (results : List Result) : ℚ :=
  ((fitIncluded results).map (fun r => fitX1 r)).sum

/-- `sumX2 = Σ X2`. -/
def sumX2 (results : List Result) : ℚ :=
  ((fitIncluded results).map (fun r => fitX2 r)).sum

/-- `sumX1X1 = Σ X1·X1`. -/
def sumX1X1 (results : List Result) : ℚ :=
  ((fitIncluded results).map (fun r => fitX1 r * fitX1 r)).sum

/-- `sumX2X2 = Σ X2·X2`. -/
def sumX2X2 (results : List Result) : ℚ :=
  ((fitIncluded results).map (fun r => fitX2 r * fitX2 r)).sum

/-- `sumX1X2 = Σ X1·X2`. -/
def sumX1X2 (results : List Result) : ℚ :=
  ((fitIncluded results).map (fun r => fitX1 r * fitX2 r)).sum

/-- `sumYX1 = Σ Y·X1`. -/
def sumYX1 (results : List Result) : ℚ :=
  ((fitIncluded results).map (fun r => fitY r * fitX1 r)).sum

/-- `sumYX2 = Σ Y·X2`. -/
def sumYX2 (results : List Result) : ℚ :=
  ((fitIncluded results).map (fun r => fitY r * fitX2 r)).sum

/-- Determinant of the 3×3 normal equations (Cramer's rule). -/
def fitDet (rs : List Result) : ℚ :=
  sumOne rs * (sumX1X1 rs * sumX2X2 rs - sumX1X2 rs * sumX1X2 rs)
    - sumX1 rs * (sumX1 rs * sumX2X2 rs - sumX1X2 rs * sumX2 rs)
    + sumX2 rs * (sumX1 rs * sumX1X2 rs - sumX1X1 rs * sumX2 rs)

/-- `det0` (numerator of b0). -/
def fitDet0 (rs : List Result) : ℚ :=
  sumY rs * (sumX1X1 rs * sumX2X2 rs - sumX1X2 rs * sumX1X2 rs)
    - sumX1 rs * (sumYX1 rs * sumX2X2 rs - sumX1X2 rs * sumYX2 rs)
    + sumX2 rs * (sumYX1 rs * sumX1X2 rs - sumX1X1 rs * sumYX2 rs)

/-- `det1` (numerator of b1). -/
def fitDet1 (rs : List Result) : ℚ :=
  sumOne rs * (sumYX1 rs * sumX2X2 rs - sumX1X2 rs * sumYX2 rs)
    - sumY rs * (sumX1 rs * sumX2X2 rs - sumX1X2 rs * sumX2 rs)
    + sumX2 rs * (sumX1 rs * sumYX2 rs - sumYX1 rs * sumX2 rs)

/-- `det2` (numerator of b2). -/
def fitDet2 (rs : List Result) : ℚ :=
  sumOne rs * (sumX1X1 rs * sumYX2 rs - sumYX1 rs * sumX1X2 rs)
    - sumX1 rs * (sumX1 rs * sumYX2 rs - sumYX1 rs * sumX2 rs)
    + sumY rs * (sumX1 rs * sumX1X2 rs - sumX1X1 rs * sumX2 rs)

/-- `b0 = det0/det`. -/
def fitB0 (rs : List Result) : ℚ := fitDet0 rs / fitDet rs

/-- `b1 = det1/det`. -/
def fitB1 (rs : List Result) : ℚ := fitDet1 rs / fitDet rs

/-- `b2 = det2/det`. -/
def fitB2 (rs : List Result) : ℚ := fitDet2 rs / fitDet rs

/-- Raw recovered `λ = 1/b0` from the primary 3-parameter solve. -/
def fitRawLambda (rs : List Result) : ℚ := 1 / fitB0 rs

/-- Raw recovered `α = b1/b0` from the primary 3-parameter solve. -/
def fitRawAlpha (rs : List Result) : ℚ := fitB1 rs / fitB0 rs

/-- Raw recovered `β = b2/b0` from the primary 3-parameter solve. -/
def fitRawBeta (rs : List Result) : ℚ := fitB2 rs / fitB0 rs

/-- 2×2 determinant of the β ≡ 0 refit.  The source recomputes the sums in a
second loop over the same data with the same skip condition; they are the very
same `sumOne`, `sumX1`, `sumX1X1`, `sumY`, `sumYX1` as above. -/
def refitDet2 (rs : List Result) : ℚ := sumOne rs * sumX1X1 rs - sumX1 rs * sumX1 rs

/-- `b0_new` of the 2-parameter refit. -/
def refitB0 (rs : List Result) : ℚ :=
  (sumX1X1 rs * sumY rs - sumX1 rs * sumYX1 rs) / refitDet2 rs

/-- `b1_new` of the 2-parameter refit. -/
def refitB1 (rs : List Result) : ℚ :=
  (sumOne rs * sumYX1 rs - sumX1 rs * sumY rs) / refitDet2 rs

/-- Refit `λ = 1/b0_new`. -/
def refitLambda (rs : List Result) : ℚ := 1 / refitB0 rs

/-- Refit `α = b1_new/b0_new`. -/
def refitAlpha (rs : List Result) : ℚ := refitB1 rs / refitB0 rs

/-- `uslModel`: predicted throughput `λn / (1 + α(n-1) + βn(n-1))`. -/
def uslModel (n lambda alpha beta : ℚ) : ℚ :=
  (lambda * n) / (1 + alpha * (n - 1) + beta * n * (n - 1))

/-- R² of the fit: predictions by the USL formula against the original data
(the mean and both sums run over the full `results` list, including
zero-throughput entries, as in the source). -/
def fitRSquared (results : List Result) (lambda alpha beta : ℚ) : ℚ :=
  let meanThroughput := (results.map (fun r => r.Throughput)).sum / (results.length : ℚ)
  let ssRes := (results.map (fun r =>
    (r.Throughput - uslModel (r.N : ℚ) lambda alpha beta) *
      (r.Throughput - uslModel (r.N : ℚ) lambda alpha beta))).sum
  let ssTot := (results.map (fun r =>
    (r.Throughput - meanThroughput) * (r.Throughput - meanThroughput))).sum
  1 - ssRes / ssTot

/-- `FitUSL`: linearized least squares with degenerate-fit fallback and the
β < 0 two-parameter refit.  `none` models the `InsufficientSamples` error. -/
def FitUSL (results : List Result) : Option USLCoefficients :=
  if results.length < 3 then none
  else if |fitDet results| < 1/10000000000 then
    -- fallback: simple heuristic estimation (`lambda := results[0].Throughput`)
    some { Lambda := results.headI.Throughput, Alpha := 1/100, Beta := 0, RSquared := 0 }
  else
    let lambda := fitRawLambda results
    let alpha := fitRawAlpha results
    let beta := fitRawBeta results
    if beta < 0 ∧ 0 < alpha then
      if 1/10000000000 < |refitDet2 results| then
        some { Lambda := refitLambda results, Alpha := refitAlpha results, Beta := 0,
               RSquared := fitRSquared results (refitLambda results) (refitAlpha results) 0 }
      else
        some { Lambda := lambda, Alpha := alpha, Beta := beta,
               RSquared := fitRSquared results lambda alpha beta }
    else
      some { Lambda := lambda, Alpha := alpha, Beta := beta,
             RSquared := fitRSquared results lambda alpha beta }

/-! Helper lemmas for the β-clamp argument.  The key fact: the concurrency
levels `N` are Go ints, so whenever two included samples have distinct `N`, the
2×2 determinant `n·ΣX1² − (ΣX1)²` is at least 1 — and whenever all included
`X1` coincide, the 3×3 determinant vanishes.  Together these show the
two-parameter refit always runs when the primary solve was non-degenerate. -/

theorem sum_congr_const (l : List Result) (f : Result → ℚ) (c : ℚ)
    (hc : ∀ r ∈ l, f r = c) :
    (l.map f).sum = (l.length : ℚ) * c := by
  induction l with
  | nil => simp
  | cons r t ih =>
    simp only [List.map_cons, List.sum_cons, List.length_cons,
      hc r (List.mem_cons_self _ _), ih (fun s hs => hc s (List.mem_cons_of_mem r hs))]
    push_cast
    ring

theorem sum_congr_mul (l : List Result) (f g : Result → ℚ) (c : ℚ)
    (hc : ∀ r ∈ l, f r = c * g r) :
    (l.map f).sum = c * (l.map g).sum := by
  induction l with
  | nil => simp
  | cons r t ih =>
    simp only [List.map_cons, List.sum_cons,
      hc r (List.mem_cons_self _ _), ih (fun s hs => hc s (List.mem_cons_of_mem r hs))]
    ring

theorem sum_sq_dev (l : List Result) (c : ℚ) :
    (l.map (fun r => (fitX1 r - c) * (fitX1 r - c))).sum =
      (l.map (fun r => fitX1 r * fitX1 r)).sum
        - 2 * c * (l.map (fun r => fitX1 r)).sum + (l.length : ℚ) * (c * c) := by
  induction l with
  | nil => simp
  | cons r t ih =>
    simp only [List.map_cons, List.sum_cons, List.length_cons, ih]
    push_cast
    ring

theorem sum_sq_dev_nonneg (l : List Result) (c : ℚ) :
    0 ≤ (l.map (fun r => (fitX1 r - c) * (fitX1 r - c))).sum := by
  apply List.sum_nonneg
  intro x hx
  obtain ⟨r, _, rfl⟩ := List.mem_map.mp hx
  exact mul_self_nonneg _

/-- The 2×2 Gram determinant of (1, X1) over a sample list. -/
def lagrangeQ (l : List Result) : ℚ :=
  (l.length : ℚ) * (l.map (fun r => fitX1 r * fitX1 r)).sum
    - (l.map (fun r => fitX1 r)).sum * (l.map (fun r => fitX1 r)).sum

theorem lagrangeQ_step (r : Result) (l : List Result) :
    lagrangeQ (r :: l) =
      lagrangeQ l + (l.map (fun s => (fitX1 s - fitX1 r) * (fitX1 s - fitX1 r))).sum := by
  simp only [lagrangeQ, List.map_cons, List.sum_cons, List.length_cons, sum_sq_dev]
  push_cast
  ring

theorem lagrangeQ_nonneg (l : List Result) : 0 ≤ lagrangeQ l := by
  induction l with
  | nil => simp [lagrangeQ]
  | cons r t ih =>
    rw [lagrangeQ_step]
    have := sum_sq_dev_nonneg t (fitX1 r)
    linarith

theorem fitX1_sq_ge_one (a b : Result) (h : a.N ≠ b.N) :
    1 ≤ (fitX1 a - fitX1 b) * (fitX1 a - fitX1 b) := by
  have h0 : a.N - b.N ≠ 0 := sub_ne_zero.mpr h
  have h1 : (1:ℤ) ≤ |a.N - b.N| := Int.one_le_abs h0
  have h2 : (1:ℤ) ≤ (a.N - b.N) * (a.N - b.N) := by
    nlinarith [abs_nonneg (a.N - b.N), abs_mul_abs_self (a.N - b.N)]
  have h3 : (1:ℚ) ≤ (((a.N - b.N) * (a.N - b.N) : ℤ) : ℚ) := by exact_mod_cast h2
  have h4 : fitX1 a - fitX1 b = (((a.N - b.N : ℤ)) : ℚ) := by
    simp only [fitX1]
    push_cast
    ring
  rw [h4]
  push_cast at h3 ⊢
  linarith

theorem lagrangeQ_ge_one (l : List Result) (a b : Result)
    (ha : a ∈ l) (hb : b ∈ l) (hab : a.N ≠ b.N) :
    1 ≤ lagrangeQ l := by
  induction l with
  | nil => cases ha
  | cons r t ih =>
    rw [lagrangeQ_step]
    have hterm : ∀ s ∈ t, s.N ≠ r.N →
        1 ≤ (t.map (fun s => (fitX1 s - fitX1 r) * (fitX1 s - fitX1 r))).sum := by
      intro s hs hsr
      have hmem : (fitX1 s - fitX1 r) * (fitX1 s - fitX1 r) ∈
          t.map (fun s => (fitX1 s - fitX1 r) * (fitX1 s - fitX1 r)) :=
        List.mem_map_of_mem _ hs
      have hge : 1 ≤ (fitX1 s - fitX1 r) * (fitX1 s - fitX1 r) := fitX1_sq_ge_one s r hsr
      have hle := List.single_le_sum (l := t.map
          (fun s => (fitX1 s - fitX1 r) * (fitX1 s - fitX1 r)))
        (fun x hx => by
          obtain ⟨u, _, rfl⟩ := List.mem_map.mp hx
          exact mul_self_nonneg _) _ hmem
      linarith
    rcases List.mem_cons.mp ha with ha' | hat
    · rcases List.mem_cons.mp hb with hb' | hbt
      · exact absurd (ha' ▸ hb' ▸ rfl) hab
      · have := hterm b hbt (by rw [← ha']; exact fun hh => hab hh.symm)
        have := lagrangeQ_nonneg t
        linarith
    · rcases List.mem_cons.mp hb with hb' | hbt
      · have := hterm a hat (by rw [← hb']; exact hab)
        have := lagrangeQ_nonneg t
        linarith
      · have := ih hat hbt
        have := sum_sq_dev_nonneg t (fitX1 r)
        linarith

/-- Whenever all included X1 coincide, the columns of the 3×3 normal matrix are
linearly dependent and the Cramer determinant vanishes. -/
theorem fitDet_eq_zero_of_const (rs : List Result) (c : ℚ)
    (hc : ∀ r ∈ fitIncluded rs, fitX1 r = c) :
    fitDet rs = 0 := by
  have h1 : sumX1 rs = sumOne rs * c := by
    unfold sumX1 sumOne
    exact sum_congr_const _ _ _ hc
  have h11 : sumX1X1 rs = sumOne rs * (c * c) := by
    unfold sumX1X1 sumOne
    exact sum_congr_const _ _ _ (fun r hr => by rw [hc r hr])
  have h12 : sumX1X2 rs = c * sumX2 rs := by
    unfold sumX1X2 sumX2
    exact sum_congr_mul _ _ _ _ (fun r hr => by rw [hc r hr])
  unfold fitDet
  rw [h1, h11, h12]
  ring

/-! ### Claim C5 -/

/-- C5: for every sample set accepted by `FitUSL` on which the non-degenerate
primary 3-parameter solve recovered β < 0 and α > 0, the returned coefficients
have β exactly 0 and the returned α, λ come from the 2-parameter refit (the 2×2
system with β ≡ 0) over the same data.  (Key step: the refit's 2×2 determinant
is ≥ 1 whenever the primary determinant passed the 1e-10 threshold, because the
N values are integers, so the refit never falls through.) -/
theorem fitUSL_clamped_beta (results : List Result)
    (hlen : 3 ≤ results.length)
    (hdet : 1/10000000000 ≤ |fitDet results|)
    (hbeta : fitRawBeta results < 0)
    (halpha : 0 < fitRawAlpha results) :
    FitUSL results = some
      { Lambda := refitLambda results
        Alpha := refitAlpha results
        Beta := 0
        RSquared := fitRSquared results (refitLambda results) (refitAlpha results) 0 } := by
  have href : 1/10000000000 < |refitDet2 results| := by
    by_cases hpair : ∃ a ∈ fitIncluded results, ∃ b ∈ fitIncluded results, a.N ≠ b.N
    · obtain ⟨a, ha, b, hb, hab⟩ := hpair
      have h1 : 1 ≤ refitDet2 results := by
        unfold refitDet2 sumOne sumX1X1 sumX1
        exact lagrangeQ_ge_one (fitIncluded results) a b ha hb hab
      have h2 : refitDet2 results ≤ |refitDet2 results| := le_abs_self _
      linarith [show (1:ℚ)/10000000000 < 1 by norm_num]
    · exfalso
      push_neg at hpair
      have hc : ∀ r ∈ fitIncluded results, fitX1 r = fitX1 (fitIncluded results).headI := by
        intro r hr
        have hne : fitIncluded results ≠ [] := by
          intro hnil
          rw [hnil] at hr
          cases hr
        have hhead : (fitIncluded results).headI ∈ fitIncluded results := by
          cases hl : fitIncluded results with
          | nil => exact absurd hl hne
          | cons x t =>
            simp [List.headI]
        have := hpair r hr _ hhead
        simp [fitX1, this]
      have hdet0 : fitDet results = 0 := fitDet_eq_zero_of_const results _ hc
      rw [hdet0] at hdet
      norm_num at hdet
  simp only [FitUSL]
  rw [if_neg (by omega), if_neg (not_lt.mpr hdet), if_pos ⟨hbeta, halpha⟩, if_pos href]

/-- The C5 witness samples: throughputs chosen so that the exact linearized
solve gives b0 = 1, b1 = 1, b2 = -1/10, i.e. raw α = 1 > 0 and raw β = -1/10 < 0. -/
def clampWitnessSamples : List Result :=
  [{ N := 1, Throughput := 1 }, { N := 2, Throughput := 10/9 }, { N := 3, Throughput := 5/4 }]

/-- Witness for C5 at the concrete sample set; the refit returns λ = 30/31 and
α = 21/31 with β clamped to 0. -/
theorem fitUSL_clamped_beta_witness :
    3 ≤ clampWitnessSamples.length ∧
    1/10000000000 ≤ |fitDet clampWitnessSamples| ∧
    fitRawBeta clampWitnessSamples < 0 ∧
    0 < fitRawAlpha clampWitnessSamples ∧
    FitUSL clampWitnessSamples = some
      { Lambda := refitLambda clampWitnessSamples
        Alpha := refitAlpha clampWitnessSamples
        Beta := 0
        RSquared := fitRSquared clampWitnessSamples (refitLambda clampWitnessSamples)
          (refitAlpha clampWitnessSamples) 0 } ∧
    refitLambda clampWitnessSamples = 30/31 ∧
    refitAlpha clampWitnessSamples = 21/31 := by
  have h1 : 3 ≤ clampWitnessSamples.length := by
    norm_num [clampWitnessSamples]
  have h2 : 1/10000000000 ≤ |fitDet clampWitnessSamples| := by
    norm_num [fitDet, sumOne, sumX1, sumX2, sumX1X1, sumX2X2, sumX1X2, fitIncluded, List.filter, clampWitnessSamples, fitX1, fitX2]
  have h3 : fitRawBeta clampWitnessSamples < 0 := by
    norm_num [fitRawBeta, fitB2, fitB0, fitDet, fitDet0, fitDet2, sumOne, sumX1, sumX2,
      sumX1X1, sumX2X2, sumX1X2, sumY, sumYX1, sumYX2, fitIncluded, List.filter, clampWitnessSamples,
      fitX1, fitX2, fitY]
  have h4 : 0 < fitRawAlpha clampWitnessSamples := by
    norm_num [fitRawAlpha, fitB1, fitB0, fitDet, fitDet0, fitDet1, sumOne, sumX1, sumX2,
      sumX1X1, sumX2X2, sumX1X2, sumY, sumYX1, sumYX2, fitIncluded, List.filter, clampWitnessSamples,
      fitX1, fitX2, fitY]
  refine ⟨h1, h2, h3, h4, fitUSL_clamped_beta clampWitnessSamples h1 h2 h3 h4, ?_, ?_⟩
  · norm_num [refitLambda, refitB0, refitDet2, sumOne, sumX1, sumX1X1, sumY, sumYX1,
      fitIncluded, List.filter, clampWitnessSamples, fitX1, fitY]
  · norm_num [refitAlpha, refitB1, refitB0, refitDet2, sumOne, sumX1, sumX1X1, sumY,
      sumYX1, fitIncluded, List.filter, clampWitnessSamples, fitX1, fitY]

/-! ### Autoscaler policy and USL prediction

These functions use `math.Sqrt`, so they are modelled over `ℝ` (hence
noncomputable definitions with classical comparisons).  `GoFloat`
distinguishes the `math.Inf(1)` and NaN values that float64 arithmetic
produces here. -/

section AutoScaler

open Classical

/-- Values a Go `float64` takes in the peak-capacity computations: a finite
real, `math.Inf(1)`, or the NaN produced by `math.Sqrt` of a negative
argument. -/
inductive GoFloat where
  | fin (x : ℝ)
  | inf
  | nan

/-- `math.Sqrt`: NaN on negative arguments. -/
noncomputable def goSqrt (x : ℝ) : GoFloat :=
  if x < 0 then GoFloat.nan else GoFloat.fin (Real.sqrt x)

/-- The Go comparison `n >= p` on float64: false when `p` is `+Inf` or NaN. -/
noncomputable def goGe (n : ℝ) (p : GoFloat) : Bool :=
  match p with
  | GoFloat.fin x => if x ≤ n then true else false
  | GoFloat.inf => false
  | GoFloat.nan => false

/-- `ScalingDecision` string constants. -/
def ScaleDown : String := "SCALE_DOWN"

/-- `Maintain = "MAINTAIN"`. -/
def Maintain : String := "MAINTAIN"

/-- `ScaleUp = "SCALE_UP"`. -/
def ScaleUp : String := "SCALE_UP"

/-- `ShedLoad = "SHED_LOAD"`. -/
def ShedLoad : String := "SHED_LOAD"

/-- `EmergencyStop = "EMERGENCY_STOP"`. -/
def EmergencyStop : String := "EMERGENCY_STOP"

/-- `AutoScalerMetrics`. -/
structure AutoScalerMetrics where
  R : ℝ
  CurrentN : ℤ
  Alpha : ℝ
  Beta : ℝ
  Lambda : ℝ
  TargetR : ℝ

/-- `ScalingRecommendation`; the human-readable `Reason` is elided. -/
structure ScalingRecommendation where
  Decision : String
  TargetN : ℤ
  PeakN : GoFloat
  InRetrograde : Bool
  CostSavings : ℝ
  RiskLevel : String

/-- The inline peak computation at the top of `ShouldScale`: `sqrt((1-α)/β)`
when β > 0 (no α ≥ 1 guard — NaN for α > 1), `+Inf` otherwise. -/
noncomputable def shouldScalePeakN (alpha beta : ℝ) : GoFloat :=
  if 0 < beta then goSqrt ((1 - alpha) / beta) else GoFloat.inf

/-- `ShouldScale`: the r-band decision tree.  The final branch models the Go
switch leaving the zero-valued fields when no case matches (unreachable for a
real-valued R). -/
noncomputable def ShouldScale (m : AutoScalerMetrics) : ScalingRecommendation :=
  let peakN := shouldScalePeakN m.Alpha m.Beta
  let inRetrograde := goGe (m.CurrentN : ℝ) peakN
  let targetR := if m.TargetR = 0 then 2 else m.TargetR
  if 4 ≤ m.R then
    { Decision := EmergencyStop, TargetN := m.CurrentN, PeakN := peakN,
      InRetrograde := inRetrograde, CostSavings := 0, RiskLevel := "CRITICAL" }
  else if 3 ≤ m.R then
    if inRetrograde then
      { Decision := ShedLoad,
        TargetN := match peakN with
          | GoFloat.fin x => ⌊x * 0.8⌋
          | _ => 0,
        PeakN := peakN, InRetrograde := inRetrograde, CostSavings := 0,
        RiskLevel := "HIGH" }
    else
      { Decision := ShedLoad, TargetN := m.CurrentN, PeakN := peakN,
        InRetrograde := inRetrograde, CostSavings := 0, RiskLevel := "HIGH" }
  else if 2.5 ≤ m.R ∧ m.R < 3 then
    if inRetrograde then
      { Decision := ShedLoad, TargetN := m.CurrentN, PeakN := peakN,
        InRetrograde := inRetrograde, CostSavings := 0, RiskLevel := "MEDIUM" }
    else
      let scaleFactor := m.R / targetR
      let targetN0 : ℤ := ⌈(m.CurrentN : ℝ) * scaleFactor⌉
      -- `maxSafeN := int(math.Floor(peakN * 0.8)); if targetN > maxSafeN { ... }`;
      -- the int conversion of Inf/NaN is unspecified in Go, so the cap is
      -- modelled only for a finite peak (the claims never hit this branch)
      let targetN : ℤ := match peakN with
        | GoFloat.fin x => if ⌊x * 0.8⌋ < targetN0 then ⌊x * 0.8⌋ else targetN0
        | _ => targetN0
      { Decision := ScaleUp, TargetN := targetN, PeakN := peakN,
        InRetrograde := inRetrograde, CostSavings := 0, RiskLevel := "MEDIUM" }
  else if 1.5 ≤ m.R ∧ m.R < 2.5 then
    { Decision := Maintain, TargetN := m.CurrentN, PeakN := peakN,
      InRetrograde := inRetrograde, CostSavings := 0, RiskLevel := "LOW" }
  else if m.R < 1.5 then
    let scaleFactor := m.R / targetR
    let targetN1 : ℤ := ⌊(m.CurrentN : ℝ) * scaleFactor⌋
    let targetN : ℤ := if targetN1 < 1 then 1 else targetN1
    { Decision := ScaleDown, TargetN := targetN, PeakN := peakN,
      InRetrograde := inRetrograde,
      CostSavings := (((m.CurrentN - targetN : ℤ) : ℝ) / (m.CurrentN : ℝ)) * 100,
      RiskLevel := "LOW" }
  else
    { Decision := "", TargetN := 0, PeakN := peakN, InRetrograde := inRetrograde,
      CostSavings := 0, RiskLevel := "" }

/-- `CalculatePeakCapacity`: `+Inf` if β ≤ 0, 0 if α ≥ 1, else `sqrt((1-α)/β)`. -/
noncomputable def CalculatePeakCapacity (alpha beta : ℝ) : GoFloat :=
  if beta ≤ 0 then GoFloat.inf
  else if 1 ≤ alpha then GoFloat.fin 0
  else GoFloat.fin (Real.sqrt ((1 - alpha) / beta))

/-- `uslModel` / `USLCoefficients.PredictThroughput` over the reals:
`C(n) = λn / (1 + α(n-1) + βn(n-1))`. -/
noncomputable def uslModelR (n lambda alpha beta : ℝ) : ℝ :=
  (lambda * n) / (1 + alpha * (n - 1) + beta * n * (n - 1))

end AutoScaler

/-! ### Claim C4 -/

/-- C4 counterexample: at α = 2, β = 1 the inline peak of `ShouldScale`
computes `sqrt((1-2)/1)` — NaN — while `CalculatePeakCapacity` returns 0, so
the two disagree (and a current N of, say, 5 counts as retrograde under the
specified `PeakCapacity` but not under the inline computation, whose NaN
comparison is false). -/
theorem peak_inline_vs_calculatePeakCapacity_cex :
    shouldScalePeakN 2 1 = GoFloat.nan ∧
    CalculatePeakCapacity 2 1 = GoFloat.fin 0 ∧
    shouldScalePeakN 2 1 ≠ CalculatePeakCapacity 2 1 ∧
    goGe (5 : ℝ) (shouldScalePeakN 2 1) = false ∧
    goGe (5 : ℝ) (CalculatePeakCapacity 2 1) = true := by
  have h1 : shouldScalePeakN 2 1 = GoFloat.nan := by
    rw [shouldScalePeakN, if_pos (by norm_num : (0:ℝ) < 1), goSqrt,
      if_pos (by norm_num : ((1:ℝ) - 2) / 1 < 0)]
  have h2 : CalculatePeakCapacity 2 1 = GoFloat.fin 0 := by
    rw [CalculatePeakCapacity, if_neg (by norm_num : ¬(1:ℝ) ≤ 0),
      if_pos (by norm_num : (1:ℝ) ≤ 2)]
  refine ⟨h1, h2, ?_, ?_, ?_⟩
  · rw [h1, h2]
    exact fun h => GoFloat.noConfusion h
  · rw [h1]
    rfl
  · rw [h2, goGe, if_pos (by norm_num : (0:ℝ) ≤ 5)]

/-- C4 (amended): the inline peak of `ShouldScale` equals
`CalculatePeakCapacity(α, β)` for all β whenever α ≤ 1; for α > 1 with β > 0
they differ (NaN versus 0), as the counterexample shows. -/
theorem peak_inline_agrees_when_alpha_le_one (alpha beta : ℝ) (h : alpha ≤ 1) :
    shouldScalePeakN alpha beta = CalculatePeakCapacity alpha beta := by
  unfold shouldScalePeakN CalculatePeakCapacity goSqrt
  rcases lt_or_le 0 beta with hb | hb
  · rw [if_pos hb, if_neg (not_le.mpr hb)]
    have harg : ¬((1 - alpha) / beta < 0) := by
      push_neg
      exact div_nonneg (by linarith) (le_of_lt hb)
    rw [if_neg harg]
    rcases le_or_lt 1 alpha with ha | ha
    · have heq : alpha = 1 := le_antisymm h ha
      rw [if_pos ha, heq]
      norm_num
    · rw [if_neg (not_le.mpr ha)]
  · rw [if_neg (not_lt.mpr hb), if_pos hb]

/-- Witness for the amended C4 at α = 1/2, β = 1/100. -/
theorem peak_inline_agrees_when_alpha_le_one_witness :
    (1/2 : ℝ) ≤ 1 ∧
    shouldScalePeakN (1/2) (1/100) = CalculatePeakCapacity (1/2) (1/100) :=
  ⟨by norm_num, peak_inline_agrees_when_alpha_le_one (1/2) (1/100) (by norm_num)⟩

/-! ### Claim C3 -/

/-- C3: for every input with β > 0, α ≤ 1 (so that N_peak = √((1-α)/β) is the
real peak), 3 ≤ r < 4 and CurrentN ≥ N_peak, `ShouldScale` returns
Decision = ShedLoad, TargetN = ⌊N_peak · 0.8⌋ and RiskLevel = HIGH. -/
theorem shouldScale_saturation_retrograde (m : AutoScalerMetrics)
    (hb : 0 < m.Beta) (ha : m.Alpha ≤ 1)
    (hr3 : 3 ≤ m.R) (hr4 : m.R < 4)
    (hretro : Real.sqrt ((1 - m.Alpha) / m.Beta) ≤ (m.CurrentN : ℝ)) :
    (ShouldScale m).Decision = ShedLoad ∧
    (ShouldScale m).TargetN = ⌊Real.sqrt ((1 - m.Alpha) / m.Beta) * 0.8⌋ ∧
    (ShouldScale m).RiskLevel = "HIGH" := by
  have hpeak : shouldScalePeakN m.Alpha m.Beta
      = GoFloat.fin (Real.sqrt ((1 - m.Alpha) / m.Beta)) := by
    rw [shouldScalePeakN, if_pos hb, goSqrt,
      if_neg (not_lt.mpr (div_nonneg (by linarith) (le_of_lt hb)))]
  have hret : goGe ((m.CurrentN : ℤ) : ℝ)
      (GoFloat.fin (Real.sqrt ((1 - m.Alpha) / m.Beta))) = true := by
    rw [goGe, if_pos hretro]
  simp only [ShouldScale, hpeak, hret]
  rw [if_neg (not_le.mpr hr4), if_pos hr3]
  exact ⟨rfl, rfl, rfl⟩

/-- The S5 / billion-dollar-optimization metrics: α = 0.3, β = 0.05, N = 50,
r = 3.2 (N_peak = √14 ≈ 3.74). -/
noncomputable def billionMetrics : AutoScalerMetrics :=
  { R := 32/10, CurrentN := 50, Alpha := 3/10, Beta := 5/100, Lambda := 1000, TargetR := 2 }

/-- Witness for C3: at the S5 input the recommendation is ShedLoad with
TargetN = ⌊0.8·√14⌋ = 2 and HIGH risk. -/
theorem shouldScale_saturation_retrograde_witness :
    0 < billionMetrics.Beta ∧ billionMetrics.Alpha ≤ 1 ∧
    3 ≤ billionMetrics.R ∧ billionMetrics.R < 4 ∧
    Real.sqrt ((1 - billionMetrics.Alpha) / billionMetrics.Beta) ≤
      (billionMetrics.CurrentN : ℝ) ∧
    (ShouldScale billionMetrics).Decision = ShedLoad ∧
    (ShouldScale billionMetrics).TargetN = 2 ∧
    (ShouldScale billionMetrics).RiskLevel = "HIGH" := by
  have harg : (1 - billionMetrics.Alpha) / billionMetrics.Beta = 14 := by
    norm_num [billionMetrics]
  have hs14 : Real.sqrt 14 * Real.sqrt 14 = 14 :=
    Real.mul_self_sqrt (by norm_num)
  have hs0 : 0 ≤ Real.sqrt 14 := Real.sqrt_nonneg 14
  have hup : Real.sqrt 14 < 15/4 := by nlinarith
  have hlow : 5/2 ≤ Real.sqrt 14 := by nlinarith
  have hb : 0 < billionMetrics.Beta := by norm_num [billionMetrics]
  have ha : billionMetrics.Alpha ≤ 1 := by norm_num [billionMetrics]
  have hr3 : 3 ≤ billionMetrics.R := by norm_num [billionMetrics]
  have hr4 : billionMetrics.R < 4 := by norm_num [billionMetrics]
  have hretro : Real.sqrt ((1 - billionMetrics.Alpha) / billionMetrics.Beta) ≤
      (billionMetrics.CurrentN : ℝ) := by
    rw [harg]
    have : (billionMetrics.CurrentN : ℝ) = 50 := by norm_num [billionMetrics]
    rw [this]
    linarith
  obtain ⟨hdec, htarget, hrisk⟩ :=
    shouldScale_saturation_retrograde billionMetrics hb ha hr3 hr4 hretro
  refine ⟨hb, ha, hr3, hr4, hretro, hdec, ?_, hrisk⟩
  rw [htarget, harg]
  have h1 : (2:ℝ) ≤ Real.sqrt 14 * 0.8 := by nlinarith
  have h2 : Real.sqrt 14 * 0.8 < 3 := by nlinarith
  rw [Int.floor_eq_iff]
  constructor
  · push_cast
    linarith
  · push_cast
    linarith

/-! ### Claim C6 -/

/-- C6 counterexample: at λ = 1, α = 0, β = 100/841 (all satisfying λ > 0,
β > 0, α < 1) the peak is N_peak = √(841/100) = 2.9, ⌊N_peak⌋ = 2, and
`predict(2) < predict(3)` — throughput at ⌊N_peak⌋ + 1 exceeds throughput at
⌊N_peak⌋, refuting `predict(⌊N_peak⌋) ≥ predict(⌊N_peak⌋ + k)` at k = 1. -/
theorem predict_floor_peak_not_max_cex :
    (0:ℝ) < 1 ∧ (0:ℝ) < 100/841 ∧ (0:ℝ) < 1 - 0 ∧
    Real.sqrt ((1 - 0) / (100/841 : ℝ)) = 29/10 ∧
    (⌊(29/10 : ℝ)⌋ : ℤ) = 2 ∧
    uslModelR ((2:ℤ) : ℝ) 1 0 (100/841) < uslModelR (((2:ℤ) + 1 : ℤ) : ℝ) 1 0 (100/841) := by
  have hsqrt : Real.sqrt ((1 - 0) / (100/841 : ℝ)) = 29/10 := by
    rw [show ((1:ℝ) - 0) / (100/841 : ℝ) = (29/10)^2 by norm_num,
      Real.sqrt_sq (by norm_num : (0:ℝ) ≤ 29/10)]
  refine ⟨by norm_num, by norm_num, by norm_num, hsqrt, ?_, ?_⟩
  · rw [Int.floor_eq_iff]
    constructor <;> norm_num
  · norm_num [uslModelR]

/-- Monotone decrease of the USL curve past the peak: for reals
`N_peak ≤ x ≤ y` with `1 ≤ x`, throughput at y is at most throughput at x. -/
theorem uslModelR_anti (lambda alpha beta : ℝ) (hl : 0 < lambda) (hb : 0 < beta)
    (ha0 : 0 ≤ alpha) (x y : ℝ) (hx1 : 1 ≤ x)
    (hpx : Real.sqrt ((1 - alpha) / beta) ≤ x) (hxy : x ≤ y) :
    uslModelR y lambda alpha beta ≤ uslModelR x lambda alpha beta := by
  have hy1 : 1 ≤ y := le_trans hx1 hxy
  have hgx : 0 < 1 + alpha * (x - 1) + beta * x * (x - 1) := by
    have h1 : 0 ≤ alpha * (x - 1) := mul_nonneg ha0 (by linarith)
    have h2 : 0 ≤ beta * x * (x - 1) :=
      mul_nonneg (mul_nonneg (le_of_lt hb) (by linarith)) (by linarith)
    linarith
  have hgy : 0 < 1 + alpha * (y - 1) + beta * y * (y - 1) := by
    have h1 : 0 ≤ alpha * (y - 1) := mul_nonneg ha0 (by linarith)
    have h2 : 0 ≤ beta * y * (y - 1) :=
      mul_nonneg (mul_nonneg (le_of_lt hb) (by linarith)) (by linarith)
    linarith
  have hs0 : 0 ≤ Real.sqrt ((1 - alpha) / beta) := Real.sqrt_nonneg _
  have hxy2 : (1 - alpha) / beta ≤ x * y := by
    rcases le_or_lt ((1 - alpha) / beta) 0 with hneg | hpos
    · nlinarith
    · have hsq : Real.sqrt ((1 - alpha) / beta) * Real.sqrt ((1 - alpha) / beta)
          = (1 - alpha) / beta := Real.mul_self_sqrt (le_of_lt hpos)
      nlinarith
  have hkey : 1 - alpha - beta * (x * y) ≤ 0 := by
    rw [div_le_iff₀ hb] at hxy2
    linarith
  have hfac : (y - x) * (1 - alpha - beta * (x * y)) ≤ 0 :=
    mul_nonpos_of_nonneg_of_nonpos (by linarith) hkey
  have hprod : lambda * ((y - x) * (1 - alpha - beta * (x * y))) ≤ 0 :=
    mul_nonpos_of_nonneg_of_nonpos (le_of_lt hl) hfac
  unfold uslModelR
  rw [div_le_div_iff₀ hgy hgx]
  nlinarith [hprod]

/-- C6 (amended): for λ > 0, β > 0 and 0 ≤ α < 1,
`predict(⌈N_peak⌉) ≥ predict(⌈N_peak⌉ + k)` for every integer k ≥ 1 — the USL
curve never exceeds its value at the first integer at or above the peak once
past it.  (The floor version fails, and for α < 0 the denominator can vanish,
hence the ceiling and the 0 ≤ α domain of the property.) -/
theorem predict_ceil_peak_antitone (lambda alpha beta : ℝ) (hl : 0 < lambda)
    (hb : 0 < beta) (ha0 : 0 ≤ alpha) (ha1 : alpha < 1) (k : ℤ) (hk : 1 ≤ k) :
    uslModelR ((⌈Real.sqrt ((1 - alpha) / beta)⌉ : ℤ) : ℝ) lambda alpha beta ≥
      uslModelR (((⌈Real.sqrt ((1 - alpha) / beta)⌉ + k : ℤ)) : ℝ) lambda alpha beta := by
  set p := Real.sqrt ((1 - alpha) / beta) with hp
  have hppos : 0 < p := Real.sqrt_pos.mpr (div_pos (by linarith) hb)
  have hceil1 : (1:ℤ) ≤ ⌈p⌉ := Int.ceil_pos.mpr hppos
  have hx1 : (1:ℝ) ≤ ((⌈p⌉ : ℤ) : ℝ) := by exact_mod_cast hceil1
  have hpx : p ≤ ((⌈p⌉ : ℤ) : ℝ) := Int.le_ceil p
  have hxy : ((⌈p⌉ : ℤ) : ℝ) ≤ ((⌈p⌉ + k : ℤ) : ℝ) := by
    push_cast
    have : (1:ℝ) ≤ (k : ℝ) := by exact_mod_cast hk
    linarith
  exact uslModelR_anti lambda alpha beta hl hb ha0 _ _ hx1 hpx hxy

/-- Witness for the amended C6 at λ = 1, α = 0, β = 100/841 (peak 2.9,
⌈peak⌉ = 3), k = 1. -/
theorem predict_ceil_peak_antitone_witness :
    (0:ℝ) < 1 ∧ (0:ℝ) < 100/841 ∧ (0:ℝ) ≤ 0 ∧ (0:ℝ) < 1 ∧ (1:ℤ) ≤ 1 ∧
    uslModelR ((⌈Real.sqrt ((1 - 0) / (100/841 : ℝ))⌉ : ℤ) : ℝ) 1 0 (100/841) ≥
      uslModelR (((⌈Real.sqrt ((1 - 0) / (100/841 : ℝ))⌉ + 1 : ℤ)) : ℝ) 1 0 (100/841) :=
  ⟨by norm_num, by norm_num, le_refl 0, by norm_num, le_refl 1,
    predict_ceil_peak_antitone 1 0 (100/841) (by norm_num) (by norm_num) (le_refl 0)
      (by norm_num) 1 (le_refl 1)⟩

end Lawbench
